import Mathlib

/-!
USB arcade joystick firmware: debounce engine and HID report builder.

A shallow embedding of `Joystick.c`.  Bytes (`uint8_t`) are natural numbers
reduced modulo `256` at every assignment; the hardware input registers `PINB`
and `PINC` are read once per call and appear as function arguments; the four
file-scope debounce bytes are an explicit state record threaded through the
functions that touch them.
-/

namespace Joystick

/-! ## Byte arithmetic -/

/-- Bitwise complement of a byte: the low eight bits of the C expression `~x`.
C evaluates `~` on the promoted `int`; every use in the source is truncated to
`uint8_t` (by assignment, cast or a mask below `256`), and the bitwise operators
act on each bit position separately, so only the low eight bits matter. -/
def not8 (x : Nat) : Nat := (x ^^^ 255) % 256

/-! ## Joystick interface (`Joystick.c` lines 41-55) -/

def JOY_LEFT : Nat := 1 <<< 4
def JOY_UP : Nat := 1 <<< 5
def JOY_RIGHT : Nat := 1 <<< 6
def JOY_DOWN : Nat := 1 <<< 7
def JOY_MASK : Nat := JOY_LEFT ||| JOY_UP ||| JOY_RIGHT ||| JOY_DOWN

/-- The function `Joystick_GetStatus`: `(uint8_t)(~PINC & JOY_MASK)`, with the
value read from `PINC` as argument. -/
def Joystick_GetStatus (pinc : Nat) : Nat := (not8 pinc &&& JOY_MASK) % 256

/-! ## Button interface (`Joystick.c` lines 59-96) -/

def BUTTONS_BUTTON1 : Nat := 1 <<< 0
def BUTTONS_BUTTON2 : Nat := 1 <<< 1
def BUTTONS_BUTTON3 : Nat := 1 <<< 2
def BUTTONS_BUTTON4 : Nat := 1 <<< 3
def BUTTONS_BUTTON5 : Nat := 1 <<< 4
def BUTTONS_BUTTON6 : Nat := 1 <<< 5
def BUTTONS_BUTTON7 : Nat := 1 <<< 6
def BUTTONS_BUTTON8 : Nat := 1 <<< 7
def BUTTON_MASK : Nat :=
  BUTTONS_BUTTON1 ||| BUTTONS_BUTTON2 ||| BUTTONS_BUTTON3 ||| BUTTONS_BUTTON4 |||
  BUTTONS_BUTTON5 ||| BUTTONS_BUTTON6 ||| BUTTONS_BUTTON7 ||| BUTTONS_BUTTON8

/-- The four file-scope bytes `debounceB0,debounceB1,debounceB2,debouncedBState`
(line 69). -/
structure DebounceState where
  debounceB0 : Nat
  debounceB1 : Nat
  debounceB2 : Nat
  debouncedBState : Nat
deriving DecidableEq, Repr

/-- Static storage is zero-initialised in C: the state at start-up. -/
def DebounceState.init : DebounceState := ⟨0, 0, 0, 0⟩

/-- The function `Buttons_GetStatus` (lines 77-96), with the value read from
`PINB` as argument.  Returns the function's result and the updated state. -/
def Buttons_GetStatus (pinb : Nat) (s : DebounceState) : Nat × DebounceState :=
  -- uint8_t delta = ~PINB ^ debouncedBState;
  let delta := (not8 pinb ^^^ s.debouncedBState) % 256
  -- debounceB2 = debounceB2 ^ (debounceB1 & debounceB0);
  let b2 := (s.debounceB2 ^^^ (s.debounceB1 &&& s.debounceB0)) % 256
  -- debounceB1 = debounceB1 ^ debounceB0;
  let b1 := (s.debounceB1 ^^^ s.debounceB0) % 256
  -- debounceB0 = ~debounceB0;
  let b0 := not8 s.debounceB0
  -- debounceB0 &= delta; debounceB1 &= delta; debounceB2 &= delta;
  let b0 := (b0 &&& delta) % 256
  let b1 := (b1 &&& delta) % 256
  let b2 := (b2 &&& delta) % 256
  -- debouncedBState ^= ~(~delta | debounceB0 | debounceB1 | debounceB2);
  let st := (s.debouncedBState ^^^ not8 (not8 delta ||| b0 ||| b1 ||| b2)) % 256
  -- return (uint8_t)(debouncedBState & BUTTON_MASK);
  ((st &&& BUTTON_MASK) % 256,
    { debounceB0 := b0, debounceB1 := b1, debounceB2 := b2, debouncedBState := st })

/-- The debounce state after one call of `Buttons_GetStatus`. -/
def debounceStep (s : DebounceState) (pinb : Nat) : DebounceState :=
  (Buttons_GetStatus pinb s).2

/-- The debounce state after consecutive calls of `Buttons_GetStatus`, one per
port sample, oldest sample first. -/
def debounceRun (s : DebounceState) (samples : List Nat) : DebounceState :=
  samples.foldl debounceStep s

/-- Number of calls, among the consecutive calls of `Buttons_GetStatus` on
`samples`, across which bit `i` of `debouncedBState` changes. -/
def flipCount (i : Nat) : DebounceState → List Nat → Nat
  | _, [] => 0
  | s, p :: ps =>
    (if (debounceStep s p).debouncedBState.testBit i = s.debouncedBState.testBit i
      then 0 else 1) + flipCount i (debounceStep s p) ps

/-! ## One line of the bit-parallel counter

The eight lines of the port are processed by the same bitwise expressions.
`lineOf` reads line `i` out of the four state bytes and `lineStep` is the same
sequence of assignments as `Buttons_GetStatus`, on single bits; `lineOf_debounceStep`
below proves that the byte-wide function acts on every line as `lineStep`. -/

/-- Line `i` of the debounce state: bit `i` of `debounceB0`, `debounceB1`,
`debounceB2` and `debouncedBState`, in this order. -/
def lineOf (i : Nat) (s : DebounceState) : Bool × Bool × Bool × Bool :=
  (s.debounceB0.testBit i, s.debounceB1.testBit i, s.debounceB2.testBit i,
    s.debouncedBState.testBit i)

/-- Bit `i` of `~PINB`, the inverted sample of line `i`. -/
def rawBit (i : Nat) (pinb : Nat) : Bool := (not8 pinb).testBit i

/-- The assignments of `Buttons_GetStatus` on one line, `r` being the line's bit
of `~PINB`. -/
def lineStep (r : Bool) (l : Bool × Bool × Bool × Bool) : Bool × Bool × Bool × Bool :=
  let delta := xor r l.2.2.2
  let b2 := xor l.2.2.1 (l.2.1 && l.1)
  let b1 := xor l.2.1 l.1
  let b0 := !l.1
  let b0 := b0 && delta
  let b1 := b1 && delta
  let b2 := b2 && delta
  (b0, b1, b2, xor l.2.2.2 (!(!delta || b0 || b1 || b2)))

/-- The line-level run: `lineStep` over the successive bits of `~PINB`. -/
def lineRun (l : Bool × Bool × Bool × Bool) (rs : List Bool) : Bool × Bool × Bool × Bool :=
  rs.foldl (fun l r => lineStep r l) l

/-- The line-level count of changes of the confirmed bit, as `flipCount`. -/
def lineFlips : Bool × Bool × Bool × Bool → List Bool → Nat
  | _, [] => 0
  | l, r :: rs => (if (lineStep r l).2.2.2 = l.2.2.2 then 0 else 1) + lineFlips (lineStep r l) rs

/-! ## HID report builder (`Joystick.c` lines 200-240) -/

/-- Modelled from the spec: the record type `USB_JoystickReport_Data_t` is declared
in `Joystick.h`, which is not among the sources.  The source assigns its fields
`X`, `Y` and `Button`; the spec gives the layout `X: int8, Y: int8, Button: uint8`. -/
structure USB_JoystickReport_Data_t where
  X : Int
  Y : Int
  Button : Nat
deriving DecidableEq, Repr

/-- Modelled from the spec: `sizeof(USB_JoystickReport_Data_t)`, the three
one-byte fields `X`, `Y` and `Button` of the record declared in `Joystick.h`. -/
def sizeof_USB_JoystickReport_Data_t : Nat := 1 + 1 + 1

/-- What a call of `CALLBACK_HID_Device_CreateHIDReport` leaves behind: the
returned boolean, the objects behind its pointer arguments `ReportID`,
`ReportData` and `ReportSize`, and the debounce bytes. -/
structure CreateHIDReportResult where
  result : Bool
  ReportID : Nat
  ReportData : USB_JoystickReport_Data_t
  ReportSize : Nat
  debounce : DebounceState
deriving DecidableEq, Repr

/-- The function `CALLBACK_HID_Device_CreateHIDReport` (lines 216-240).
`ReportID` and `ReportData` are the contents behind the pointers on entry,
`pinc` and `pinb` the values read from the two input ports during the call and
`s` the debounce bytes on entry.  `HIDInterfaceInfo` is not used by the body. -/
def CALLBACK_HID_Device_CreateHIDReport (ReportID ReportType : Nat)
    (ReportData : USB_JoystickReport_Data_t) (pinc pinb : Nat) (s : DebounceState) :
    CreateHIDReportResult :=
  let JoystickReport := ReportData
  let JoyStatus_LCL := Joystick_GetStatus pinc
  let JoystickReport :=
    if JoyStatus_LCL &&& JOY_UP ≠ 0 then { JoystickReport with Y := -100 }
    else if JoyStatus_LCL &&& JOY_DOWN ≠ 0 then { JoystickReport with Y := 100 }
    else JoystickReport
  let JoystickReport :=
    if JoyStatus_LCL &&& JOY_LEFT ≠ 0 then { JoystickReport with X := -100 }
    else if JoyStatus_LCL &&& JOY_RIGHT ≠ 0 then { JoystickReport with X := 100 }
    else JoystickReport
  let b := Buttons_GetStatus pinb s
  let JoystickReport := { JoystickReport with Button := b.1 }
  { result := false
    ReportID := ReportID
    ReportData := JoystickReport
    ReportSize := sizeof_USB_JoystickReport_Data_t
    debounce := b.2 }

/-- The memory the start-of-frame handler can reach: the object
`Joystick_HID_Interface`, of the library type `H`, and the debounce bytes. -/
structure Device (H : Type) where
  Joystick_HID_Interface : H
  debounce : DebounceState

/-- The function `EVENT_USB_Device_StartOfFrame` (lines 201-204): one call of the
library function `HID_Device_MillisecondElapsed` on `&Joystick_HID_Interface`.
The library function is a parameter; it is handed the interface object only, and
the debounce bytes are `static` objects of `Joystick.c` whose address is never
taken, so no code outside that file can write them. -/
def EVENT_USB_Device_StartOfFrame {H : Type} (HID_Device_MillisecondElapsed : H → H)
    (d : Device H) : Device H :=
  { d with Joystick_HID_Interface := HID_Device_MillisecondElapsed d.Joystick_HID_Interface }

/-! ## Host report callback (`Joystick.c` lines 250-257) -/

/-- The objects of static storage duration of `Joystick.c`: the debounce bytes,
the buffer `PrevJoystickHIDReportBuffer` and the object `Joystick_HID_Interface`
of the library type `H`. -/
structure Globals (H : Type) where
  debounce : DebounceState
  PrevJoystickHIDReportBuffer : List Nat
  Joystick_HID_Interface : H

/-- The function `CALLBACK_HID_Device_ProcessHIDReport` (lines 250-257).  Its body
is empty: it returns nothing, reads none of its arguments (`ReportData` is the
content of the received buffer, `ReportSize` its size) and writes no object.
`HIDInterfaceInfo` is a pointer that the body does not use. -/
def CALLBACK_HID_Device_ProcessHIDReport {H : Type} (ReportID ReportType : Nat)
    (ReportData : List Nat) (ReportSize : Nat) (g : Globals H) : Globals H :=
  g

/-! ## The per-line counter machine

A description of one line of the debounce engine as a counter, to be compared
with `Buttons_GetStatus`. -/

/-- The counter value of line `i`: `4 * debounceB2[i] + 2 * debounceB1[i] +
debounceB0[i]`. -/
def lineCounter (i : Nat) (s : DebounceState) : Nat :=
  4 * (s.debounceB2.testBit i).toNat + 2 * (s.debounceB1.testBit i).toNat +
    (s.debounceB0.testBit i).toNat

/-- One step of the counter machine of a line with counter `c` and confirmed bit
`d`, on the inverted sample bit `r`: when `r` equals `d` the counter becomes `0`
and the confirmed bit is kept; otherwise the counter becomes `(c + 1) mod 8` and
the confirmed bit is flipped exactly when the new counter is `0`. -/
def counterMachineStep (r : Bool) (c : Nat) (d : Bool) : Nat × Bool :=
  if r = d then (0, d)
  else ((c + 1) % 8, if (c + 1) % 8 = 0 then !d else d)

/-! ## Bit-level facts -/

theorem testBit_mod_256 (x i : Nat) :
    (x % 256).testBit i = (decide (i < 8) && x.testBit i) :=
  Nat.testBit_mod_two_pow x 8 i

theorem testBit_255 (i : Nat) : Nat.testBit 255 i = decide (i < 8) :=
  Nat.testBit_two_pow_sub_one 8 i

theorem testBit_not8 (x i : Nat) (hi : i < 8) : (not8 x).testBit i = !x.testBit i := by
  simp [not8, testBit_mod_256, testBit_255, hi]

theorem rawBit_eq (i pinb : Nat) (hi : i < 8) : rawBit i pinb = !pinb.testBit i :=
  testBit_not8 pinb i hi

/-- On every line `i < 8` the byte-wide `Buttons_GetStatus` is `lineStep`. -/
theorem lineOf_debounceStep (i : Nat) (hi : i < 8) (s : DebounceState) (pinb : Nat) :
    lineOf i (debounceStep s pinb) = lineStep (rawBit i pinb) (lineOf i s) := by
  simp only [lineOf, debounceStep, Buttons_GetStatus, lineStep, rawBit, testBit_mod_256,
    Nat.testBit_xor, Nat.testBit_and, Nat.testBit_or, testBit_not8 _ _ hi, hi, decide_True,
    Bool.true_and]

/-- The value returned by `Buttons_GetStatus` is the whole new confirmed byte:
`BUTTON_MASK` covers all eight bits. -/
theorem Buttons_GetStatus_fst (pinb : Nat) (s : DebounceState) :
    (Buttons_GetStatus pinb s).1 = (debounceStep s pinb).debouncedBState := by
  have h : BUTTON_MASK = 2 ^ 8 - 1 := by decide
  simp only [Buttons_GetStatus, debounceStep, h, Nat.and_pow_two_sub_one_eq_mod]
  norm_num

theorem confirmed_debounceStep (i : Nat) (hi : i < 8) (s : DebounceState) (pinb : Nat) :
    (debounceStep s pinb).debouncedBState.testBit i =
      (lineStep (rawBit i pinb) (lineOf i s)).2.2.2 := by
  rw [← lineOf_debounceStep i hi]; rfl

theorem debounceRun_cons (s : DebounceState) (p : Nat) (ps : List Nat) :
    debounceRun s (p :: ps) = debounceRun (debounceStep s p) ps := rfl

theorem lineOf_debounceRun (i : Nat) (hi : i < 8) (ps : List Nat) :
    ∀ s : DebounceState, lineOf i (debounceRun s ps) = lineRun (lineOf i s) (ps.map (rawBit i)) := by
  induction ps with
  | nil => intro s; rfl
  | cons p ps ih =>
    intro s
    rw [debounceRun_cons, ih, lineOf_debounceStep i hi]
    rfl

theorem flipCount_eq_lineFlips (i : Nat) (hi : i < 8) (ps : List Nat) :
    ∀ s : DebounceState, flipCount i s ps = lineFlips (lineOf i s) (ps.map (rawBit i)) := by
  induction ps with
  | nil => intro s; rfl
  | cons p ps ih =>
    intro s
    simp only [flipCount, List.map_cons, lineFlips, ih, lineOf_debounceStep i hi,
      confirmed_debounceStep i hi]
    rfl

theorem lineRun_append (l : Bool × Bool × Bool × Bool) (xs ys : List Bool) :
    lineRun l (xs ++ ys) = lineRun (lineRun l xs) ys := by
  simp [lineRun, List.foldl_append]

theorem lineFlips_append (xs ys : List Bool) :
    ∀ l : Bool × Bool × Bool × Bool,
      lineFlips l (xs ++ ys) = lineFlips l xs + lineFlips (lineRun l xs) ys := by
  induction xs with
  | nil => intro l; simp [lineFlips, lineRun]
  | cons x xs ih =>
    intro l
    show (if (lineStep x l).2.2.2 = l.2.2.2 then 0 else 1) + lineFlips (lineStep x l) (xs ++ ys) =
      (if (lineStep x l).2.2.2 = l.2.2.2 then 0 else 1) + lineFlips (lineStep x l) xs +
        lineFlips (lineRun (lineStep x l) xs) ys
    rw [ih, Nat.add_assoc]

/-- A line whose sample agrees with its confirmed bit has its counter cleared
and keeps the confirmed bit. -/
theorem lineStep_agree (b0 b1 b2 d : Bool) :
    lineStep d (b0, b1, b2, d) = (false, false, false, d) := by
  revert b0 b1 b2 d; decide

/-- Samples that keep agreeing never change the confirmed bit. -/
theorem lineRun_agree (d : Bool) (m : Nat) :
    ∀ b0 b1 b2 : Bool, (lineRun (b0, b1, b2, d) (List.replicate m d)).2.2.2 = d ∧
      lineFlips (b0, b1, b2, d) (List.replicate m d) = 0 := by
  induction m with
  | zero => intro b0 b1 b2; exact ⟨rfl, rfl⟩
  | succ m ih =>
    intro b0 b1 b2
    simp only [List.replicate_succ, lineRun, List.foldl_cons, lineFlips, lineStep_agree]
    exact ⟨(ih false false false).1, by simpa using (ih false false false).2⟩

/-- Eight disagreeing samples on a line whose counter is clear: the confirmed
bit changes on the last of them and the counter is clear again. -/
theorem lineRun_eight (d : Bool) :
    lineRun (false, false, false, d) (List.replicate 8 (!d)) = (false, false, false, !d) ∧
      lineFlips (false, false, false, d) (List.replicate 8 (!d)) = 1 := by
  revert d; decide

theorem map_rawBit_eq_replicate (i : Nat) (r : Bool) (ps : List Nat)
    (h : ∀ p ∈ ps, rawBit i p = r) : ps.map (rawBit i) = List.replicate ps.length r := by
  induction ps with
  | nil => rfl
  | cons p ps ih =>
    simp only [List.map_cons, List.length_cons, List.replicate_succ]
    rw [h p (List.mem_cons_self _ _), ih (fun q hq => h q (List.mem_cons_of_mem _ hq))]

/-! ## Debounce engine: the claims -/

/-- C1, as stated, fails.  From the all-zero start state, four consecutive
samples whose inverted bit 0 is the opposite of confirmed bit 0 do not change
confirmed bit 0 at all: after the four calls of `Buttons_GetStatus` the bit is
still 0 although the raw value is 1, and the line's counter stands at 4. -/
theorem acceptance_four_ticks_counterexample :
    DebounceState.init.debounceB0.testBit 0 = false ∧
    DebounceState.init.debounceB1.testBit 0 = false ∧
    DebounceState.init.debounceB2.testBit 0 = false ∧
    4 ≤ [254, 254, 254, 254].length ∧
    (∀ p ∈ [254, 254, 254, 254],
      rawBit 0 p = !DebounceState.init.debouncedBState.testBit 0) ∧
    flipCount 0 DebounceState.init [254, 254, 254, 254] = 0 ∧
    (debounceRun DebounceState.init [254, 254, 254, 254]).debouncedBState.testBit 0 = false ∧
    debounceRun DebounceState.init [254, 254, 254, 254] = ⟨0, 0, 1, 0⟩ := by
  decide

/-- C1, amended to the three-bit counter of the code: for every debounce state in
which the three counter bits of line `i` are zero and every `n ≥ 8`, feeding
`Buttons_GetStatus` `n` consecutive samples whose inverted bit `i` is the opposite
of confirmed bit `i` at the start changes confirmed bit `i` exactly once during
those calls, and after them it equals the new raw value. -/
theorem acceptance_after_eight_ticks (s : DebounceState) (i : Nat) (hi : i < 8)
    (h0 : s.debounceB0.testBit i = false) (h1 : s.debounceB1.testBit i = false)
    (h2 : s.debounceB2.testBit i = false) (samples : List Nat) (hn : 8 ≤ samples.length)
    (hraw : ∀ p ∈ samples, rawBit i p = !s.debouncedBState.testBit i) :
    flipCount i s samples = 1 ∧
      (debounceRun s samples).debouncedBState.testBit i = !s.debouncedBState.testBit i := by
  have hl : lineOf i s = (false, false, false, s.debouncedBState.testBit i) := by
    simp only [lineOf, h0, h1, h2]
  have hc : (debounceRun s samples).debouncedBState.testBit i =
      (lineOf i (debounceRun s samples)).2.2.2 := rfl
  obtain ⟨m, hm⟩ : ∃ m, samples.length = 8 + m := ⟨samples.length - 8, by omega⟩
  rw [hc, flipCount_eq_lineFlips i hi, lineOf_debounceRun i hi, hl,
    map_rawBit_eq_replicate i _ samples hraw, hm, List.replicate_add, lineFlips_append,
    lineRun_append, (lineRun_eight _).1, (lineRun_eight _).2]
  have h := lineRun_agree (!s.debouncedBState.testBit i) m false false false
  exact ⟨by rw [h.2], h.1⟩

theorem acceptance_after_eight_ticks_witness :
    flipCount 3 ⟨0x11, 0x22, 0x44, 0x08⟩ [0x0F, 0xFF, 0x08, 0x3A, 0x59, 0xC8, 0x0E, 0x2B, 0xFF] = 1 ∧
      (debounceRun ⟨0x11, 0x22, 0x44, 0x08⟩
        [0x0F, 0xFF, 0x08, 0x3A, 0x59, 0xC8, 0x0E, 0x2B, 0xFF]).debouncedBState.testBit 3 =
        !(0x08 : Nat).testBit 3 :=
  acceptance_after_eight_ticks ⟨0x11, 0x22, 0x44, 0x08⟩ 3 (by decide) (by decide) (by decide)
    (by decide) [0x0F, 0xFF, 0x08, 0x3A, 0x59, 0xC8, 0x0E, 0x2B, 0xFF] (by decide) (by decide)

/-- C2, glitch rejection.  Let `s` be the all-zero start state, or the state
after any sequence of `Buttons_GetStatus` calls from it whose last sample agreed
on line `i` with the confirmed bit (as it was before that call, or as it is after
it).  A sample `glitch` whose inverted bit `i` differs from confirmed bit `i`,
followed by a sample `back` that agrees with it again, leaves confirmed bit `i`
unchanged after the first and after the second call. -/
theorem glitch_rejected (s : DebounceState) (i : Nat) (hi : i < 8)
    (hs : s = DebounceState.init ∨
      ∃ (earlier : List Nat) (last : Nat),
        s = debounceStep (debounceRun DebounceState.init earlier) last ∧
        (rawBit i last = (debounceRun DebounceState.init earlier).debouncedBState.testBit i ∨
          rawBit i last = s.debouncedBState.testBit i))
    (glitch back : Nat) (hg : rawBit i glitch ≠ s.debouncedBState.testBit i)
    (hb : rawBit i back = s.debouncedBState.testBit i) :
    (debounceStep s glitch).debouncedBState.testBit i = s.debouncedBState.testBit i ∧
      (debounceStep (debounceStep s glitch) back).debouncedBState.testBit i =
        s.debouncedBState.testBit i := by
  have hl : lineOf i s = (false, false, false, s.debouncedBState.testBit i) := by
    rcases hs with rfl | ⟨earlier, last, hs, hagree⟩
    · simp [lineOf, DebounceState.init]
    · have hstep := lineOf_debounceStep i hi (debounceRun DebounceState.init earlier) last
      rw [← hs] at hstep
      have hd : s.debouncedBState.testBit i = (lineOf i s).2.2.2 := rfl
      have hd0 : (debounceRun DebounceState.init earlier).debouncedBState.testBit i =
        (lineOf i (debounceRun DebounceState.init earlier)).2.2.2 := rfl
      rw [hd0, hd, hstep] at hagree
      rw [hd, hstep]
      generalize lineOf i (debounceRun DebounceState.init earlier) = l at hagree ⊢
      generalize rawBit i last = r at hagree ⊢
      revert hagree; revert l r; decide
  have hg2 : rawBit i glitch = !s.debouncedBState.testBit i := by
    cases h1 : rawBit i glitch <;> cases h2 : s.debouncedBState.testBit i <;> simp_all
  rw [confirmed_debounceStep i hi, confirmed_debounceStep i hi, lineOf_debounceStep i hi, hl,
    hg2, hb]
  generalize s.debouncedBState.testBit i = d
  revert d; decide

theorem glitch_rejected_witness :
    (debounceStep (debounceStep (debounceRun DebounceState.init [0xFB, 0xFB, 0x5F]) 0xFB)
        0x7F).debouncedBState.testBit 2 =
      (debounceRun DebounceState.init [0xFB, 0xFB, 0x5F]).debouncedBState.testBit 2 :=
  (glitch_rejected (debounceRun DebounceState.init [0xFB, 0xFB, 0x5F]) 2 (by decide)
    (Or.inr ⟨[0xFB, 0xFB], 0x5F, rfl, Or.inr (by decide)⟩) 0xFB 0x7F (by decide) (by decide)).2

/-- One call whose sample agrees with the confirmed bit of line `i` keeps that
bit. -/
theorem debounceStep_agree (i : Nat) (hi : i < 8) (s : DebounceState) (pinb : Nat)
    (h : rawBit i pinb = s.debouncedBState.testBit i) :
    (debounceStep s pinb).debouncedBState.testBit i = s.debouncedBState.testBit i := by
  have hl : lineOf i s = (s.debounceB0.testBit i, s.debounceB1.testBit i,
    s.debounceB2.testBit i, s.debouncedBState.testBit i) := rfl
  rw [confirmed_debounceStep i hi, h, hl, lineStep_agree]

theorem debounceRun_agree (i : Nat) (hi : i < 8) (samples : List Nat) :
    ∀ s : DebounceState, (∀ p ∈ samples, rawBit i p = s.debouncedBState.testBit i) →
      (debounceRun s samples).debouncedBState.testBit i = s.debouncedBState.testBit i := by
  induction samples with
  | nil => intro s _; rfl
  | cons p ps ih =>
    intro s h
    have hp := debounceStep_agree i hi s p (h p (List.mem_cons_self _ _))
    rw [debounceRun_cons, ih (debounceStep s p), hp]
    intro q hq
    rw [hp]
    exact h q (List.mem_cons_of_mem _ hq)

/-- C3, debounce stability.  For every debounce state, whatever its counter bytes
hold, every line `i` and every sequence of samples whose inverted bit `i` always
equals confirmed bit `i` at the start, confirmed bit `i` is the same after each
of the calls of `Buttons_GetStatus`: after the first `k` calls, for every `k`. -/
theorem debounce_stability (s : DebounceState) (i : Nat) (hi : i < 8) (samples : List Nat)
    (hraw : ∀ p ∈ samples, rawBit i p = s.debouncedBState.testBit i) (k : Nat) :
    (debounceRun s (samples.take k)).debouncedBState.testBit i =
      s.debouncedBState.testBit i :=
  debounceRun_agree i hi (samples.take k) s (fun p hp => hraw p (List.mem_of_mem_take hp))

theorem debounce_stability_witness :
    (debounceRun ⟨0xFF, 0xA5, 0x3C, 0x80⟩
        ([0x7F, 0x00, 0x55, 0x2A, 0x7F].take 4)).debouncedBState.testBit 7 =
      (0x80 : Nat).testBit 7 :=
  debounce_stability ⟨0xFF, 0xA5, 0x3C, 0x80⟩ 7 (by decide) [0x7F, 0x00, 0x55, 0x2A, 0x7F]
    (by decide) 4

/-- C4, bit independence.  Two debounce states that agree on bit `i` of the four
bytes and two port samples that agree on bit `i` give, after one call of
`Buttons_GetStatus`, states that agree on bit `i` of the four bytes and results
that agree on bit `i`, whatever the other seven lines hold. -/
theorem bit_independence (i : Nat) (hi : i < 8) (s t : DebounceState) (p q : Nat)
    (h0 : s.debounceB0.testBit i = t.debounceB0.testBit i)
    (h1 : s.debounceB1.testBit i = t.debounceB1.testBit i)
    (h2 : s.debounceB2.testBit i = t.debounceB2.testBit i)
    (hd : s.debouncedBState.testBit i = t.debouncedBState.testBit i)
    (hp : p.testBit i = q.testBit i) :
    (Buttons_GetStatus p s).2.debounceB0.testBit i =
        (Buttons_GetStatus q t).2.debounceB0.testBit i ∧
      (Buttons_GetStatus p s).2.debounceB1.testBit i =
        (Buttons_GetStatus q t).2.debounceB1.testBit i ∧
      (Buttons_GetStatus p s).2.debounceB2.testBit i =
        (Buttons_GetStatus q t).2.debounceB2.testBit i ∧
      (Buttons_GetStatus p s).2.debouncedBState.testBit i =
        (Buttons_GetStatus q t).2.debouncedBState.testBit i ∧
      (Buttons_GetStatus p s).1.testBit i = (Buttons_GetStatus q t).1.testBit i := by
  have hl : lineOf i s = lineOf i t := by simp only [lineOf, h0, h1, h2, hd]
  have hr : rawBit i p = rawBit i q := by rw [rawBit_eq i p hi, rawBit_eq i q hi, hp]
  have hstep : lineOf i (debounceStep s p) = lineOf i (debounceStep t q) := by
    rw [lineOf_debounceStep i hi, lineOf_debounceStep i hi, hl, hr]
  have hc := congrArg (fun l => l.2.2.2) hstep
  rw [Buttons_GetStatus_fst, Buttons_GetStatus_fst]
  exact ⟨congrArg (fun l => l.1) hstep, congrArg (fun l => l.2.1) hstep,
    congrArg (fun l => l.2.2.1) hstep, hc, hc⟩

theorem bit_independence_witness :
    (Buttons_GetStatus 0xAA ⟨0x55, 0xF1, 0x0F, 0x01⟩).2.debounceB0.testBit 0 =
        (Buttons_GetStatus 0x54 ⟨0xAB, 0x0F, 0xF1, 0xFF⟩).2.debounceB0.testBit 0 ∧
      (Buttons_GetStatus 0xAA ⟨0x55, 0xF1, 0x0F, 0x01⟩).2.debounceB1.testBit 0 =
        (Buttons_GetStatus 0x54 ⟨0xAB, 0x0F, 0xF1, 0xFF⟩).2.debounceB1.testBit 0 ∧
      (Buttons_GetStatus 0xAA ⟨0x55, 0xF1, 0x0F, 0x01⟩).2.debounceB2.testBit 0 =
        (Buttons_GetStatus 0x54 ⟨0xAB, 0x0F, 0xF1, 0xFF⟩).2.debounceB2.testBit 0 ∧
      (Buttons_GetStatus 0xAA ⟨0x55, 0xF1, 0x0F, 0x01⟩).2.debouncedBState.testBit 0 =
        (Buttons_GetStatus 0x54 ⟨0xAB, 0x0F, 0xF1, 0xFF⟩).2.debouncedBState.testBit 0 ∧
      (Buttons_GetStatus 0xAA ⟨0x55, 0xF1, 0x0F, 0x01⟩).1.testBit 0 =
        (Buttons_GetStatus 0x54 ⟨0xAB, 0x0F, 0xF1, 0xFF⟩).1.testBit 0 :=
  bit_independence 0 (by decide) ⟨0x55, 0xF1, 0x0F, 0x01⟩ ⟨0xAB, 0x0F, 0xF1, 0xFF⟩ 0xAA 0x54
    (by decide) (by decide) (by decide) (by decide) (by decide)

/-! ## Report builder: the claims -/

/-- C5, axis priority.  For every content of the joystick port, of the button
port, of the debounce bytes and of the report buffer on entry,
`CALLBACK_HID_Device_CreateHIDReport` leaves `Y = -100` when `JOY_UP` and
`JOY_DOWN` are both asserted and `X = -100` when `JOY_LEFT` and `JOY_RIGHT` are
both asserted; with UP, DOWN and RIGHT asserted and LEFT not, the report has
`X = 100` and `Y = -100`. -/
theorem axis_priority (ReportID ReportType : Nat) (ReportData : USB_JoystickReport_Data_t)
    (pinc pinb : Nat) (s : DebounceState) :
    (Joystick_GetStatus pinc &&& JOY_UP ≠ 0 → Joystick_GetStatus pinc &&& JOY_DOWN ≠ 0 →
      (CALLBACK_HID_Device_CreateHIDReport ReportID ReportType ReportData pinc pinb
        s).ReportData.Y = -100) ∧
    (Joystick_GetStatus pinc &&& JOY_LEFT ≠ 0 → Joystick_GetStatus pinc &&& JOY_RIGHT ≠ 0 →
      (CALLBACK_HID_Device_CreateHIDReport ReportID ReportType ReportData pinc pinb
        s).ReportData.X = -100) ∧
    (Joystick_GetStatus pinc &&& JOY_UP ≠ 0 → Joystick_GetStatus pinc &&& JOY_DOWN ≠ 0 →
      Joystick_GetStatus pinc &&& JOY_LEFT = 0 → Joystick_GetStatus pinc &&& JOY_RIGHT ≠ 0 →
      (CALLBACK_HID_Device_CreateHIDReport ReportID ReportType ReportData pinc pinb
        s).ReportData.X = 100 ∧
      (CALLBACK_HID_Device_CreateHIDReport ReportID ReportType ReportData pinc pinb
        s).ReportData.Y = -100) := by
  refine ⟨fun hU _ => ?_, fun hL _ => ?_, fun hU _ hL hR => ?_⟩
  · simp only [CALLBACK_HID_Device_CreateHIDReport]
    split_ifs <;> rfl
  · simp only [CALLBACK_HID_Device_CreateHIDReport]
    split_ifs <;> rfl
  · simp only [CALLBACK_HID_Device_CreateHIDReport]
    split_ifs <;> first | exact ⟨rfl, rfl⟩ | contradiction

theorem axis_priority_witness :
    ((CALLBACK_HID_Device_CreateHIDReport 0 1 ⟨0, 0, 0⟩ 0x0F 0xFF
        DebounceState.init).ReportData.Y = -100 ∧
      (CALLBACK_HID_Device_CreateHIDReport 0 1 ⟨0, 0, 0⟩ 0x0F 0xFF
        DebounceState.init).ReportData.X = -100) ∧
    (CALLBACK_HID_Device_CreateHIDReport 0 1 ⟨7, 7, 7⟩ 0x1F 0xFF
        DebounceState.init).ReportData.X = 100 ∧
    (CALLBACK_HID_Device_CreateHIDReport 0 1 ⟨7, 7, 7⟩ 0x1F 0xFF
        DebounceState.init).ReportData.Y = -100 :=
  ⟨⟨(axis_priority 0 1 ⟨0, 0, 0⟩ 0x0F 0xFF DebounceState.init).1 (by decide) (by decide),
    (axis_priority 0 1 ⟨0, 0, 0⟩ 0x0F 0xFF DebounceState.init).2.1 (by decide) (by decide)⟩,
   (axis_priority 0 1 ⟨7, 7, 7⟩ 0x1F 0xFF DebounceState.init).2.2 (by decide) (by decide)
    (by decide) (by decide)⟩

/-- C6, as stated, fails.  With no direction asserted (`PINC = 0xFF`) and a
report buffer holding `X = 100`, `Y = -100` on entry, the report produced still
has `X = 100` and `Y = -100`, not `0` and `0`. -/
theorem neutral_default_counterexample :
    Joystick_GetStatus 0xFF &&& JOY_UP = 0 ∧ Joystick_GetStatus 0xFF &&& JOY_DOWN = 0 ∧
    Joystick_GetStatus 0xFF &&& JOY_LEFT = 0 ∧ Joystick_GetStatus 0xFF &&& JOY_RIGHT = 0 ∧
    (CALLBACK_HID_Device_CreateHIDReport 0 1 ⟨100, -100, 0⟩ 0xFF 0xFF
      DebounceState.init).ReportData.X = 100 ∧
    (CALLBACK_HID_Device_CreateHIDReport 0 1 ⟨100, -100, 0⟩ 0xFF 0xFF
      DebounceState.init).ReportData.Y = -100 ∧
    ¬ ((CALLBACK_HID_Device_CreateHIDReport 0 1 ⟨100, -100, 0⟩ 0xFF 0xFF
        DebounceState.init).ReportData.X = 0 ∧
      (CALLBACK_HID_Device_CreateHIDReport 0 1 ⟨100, -100, 0⟩ 0xFF 0xFF
        DebounceState.init).ReportData.Y = 0) := by
  decide

/-- C6, amended.  In every call of `CALLBACK_HID_Device_CreateHIDReport` in which
none of UP, DOWN, LEFT, RIGHT is asserted, the `X` and `Y` fields are left as the
output buffer held them before the call; the report has `X = 0` and `Y = 0` when
the buffer held `X = 0` and `Y = 0` on entry. -/
theorem neutral_keeps_axes (ReportID ReportType : Nat) (ReportData : USB_JoystickReport_Data_t)
    (pinc pinb : Nat) (s : DebounceState)
    (hU : Joystick_GetStatus pinc &&& JOY_UP = 0) (hD : Joystick_GetStatus pinc &&& JOY_DOWN = 0)
    (hL : Joystick_GetStatus pinc &&& JOY_LEFT = 0)
    (hR : Joystick_GetStatus pinc &&& JOY_RIGHT = 0) :
    (CALLBACK_HID_Device_CreateHIDReport ReportID ReportType ReportData pinc pinb
        s).ReportData.X = ReportData.X ∧
    (CALLBACK_HID_Device_CreateHIDReport ReportID ReportType ReportData pinc pinb
        s).ReportData.Y = ReportData.Y ∧
    (ReportData.X = 0 → ReportData.Y = 0 →
      (CALLBACK_HID_Device_CreateHIDReport ReportID ReportType ReportData pinc pinb
        s).ReportData.X = 0 ∧
      (CALLBACK_HID_Device_CreateHIDReport ReportID ReportType ReportData pinc pinb
        s).ReportData.Y = 0) := by
  simp only [CALLBACK_HID_Device_CreateHIDReport, hU, hD, hL, hR]
  exact ⟨rfl, rfl, fun hx hy => ⟨hx, hy⟩⟩

theorem neutral_keeps_axes_witness :
    (CALLBACK_HID_Device_CreateHIDReport 0 1 ⟨0, 0, 0x5A⟩ 0xF3 0x0F
        ⟨1, 2, 3, 4⟩).ReportData.X = 0 ∧
    (CALLBACK_HID_Device_CreateHIDReport 0 1 ⟨0, 0, 0x5A⟩ 0xF3 0x0F
        ⟨1, 2, 3, 4⟩).ReportData.Y = 0 :=
  (neutral_keeps_axes 0 1 ⟨0, 0, 0x5A⟩ 0xF3 0x0F ⟨1, 2, 3, 4⟩ (by decide) (by decide)
    (by decide) (by decide)).2.2 rfl rfl

/-- C7, as stated, fails.  Two calls with the same joystick sample (`PINC = 0xFF`,
nothing asserted), the same button sample and the same debounce state, but prior
buffer contents `(0, 0, 0)` and `(5, 7, 9)`, leave different `X` and different
`Y` in the buffer: the prior `X` and `Y` survive. -/
theorem report_completeness_counterexample :
    (CALLBACK_HID_Device_CreateHIDReport 0 1 ⟨0, 0, 0⟩ 0xFF 0xFF
        DebounceState.init).ReportData = ⟨0, 0, 0⟩ ∧
    (CALLBACK_HID_Device_CreateHIDReport 0 1 ⟨5, 7, 9⟩ 0xFF 0xFF
        DebounceState.init).ReportData = ⟨5, 7, 0⟩ ∧
    (CALLBACK_HID_Device_CreateHIDReport 0 1 ⟨0, 0, 0⟩ 0xFF 0xFF
        DebounceState.init).ReportData.X ≠
      (CALLBACK_HID_Device_CreateHIDReport 0 1 ⟨5, 7, 9⟩ 0xFF 0xFF
        DebounceState.init).ReportData.X ∧
    (CALLBACK_HID_Device_CreateHIDReport 0 1 ⟨0, 0, 0⟩ 0xFF 0xFF
        DebounceState.init).ReportData.Y ≠
      (CALLBACK_HID_Device_CreateHIDReport 0 1 ⟨5, 7, 9⟩ 0xFF 0xFF
        DebounceState.init).ReportData.Y := by
  decide

/-- C7, amended.  For every joystick sample, button sample and debounce state,
two calls of `CALLBACK_HID_Device_CreateHIDReport` with different prior contents
of the output buffer leave identical `X`, `Y` and `Button`, provided that on each
axis either a direction is asserted (UP or DOWN for `Y`, LEFT or RIGHT for `X`)
or the two prior contents agree on that axis field.  `Button` is always written. -/
theorem report_completeness (ReportID ReportType : Nat)
    (prior prior2 : USB_JoystickReport_Data_t) (pinc pinb : Nat) (s : DebounceState)
    (hY : Joystick_GetStatus pinc &&& JOY_UP ≠ 0 ∨ Joystick_GetStatus pinc &&& JOY_DOWN ≠ 0 ∨
      prior.Y = prior2.Y)
    (hX : Joystick_GetStatus pinc &&& JOY_LEFT ≠ 0 ∨ Joystick_GetStatus pinc &&& JOY_RIGHT ≠ 0 ∨
      prior.X = prior2.X) :
    (CALLBACK_HID_Device_CreateHIDReport ReportID ReportType prior pinc pinb s).ReportData =
      (CALLBACK_HID_Device_CreateHIDReport ReportID ReportType prior2 pinc pinb s).ReportData := by
  simp only [CALLBACK_HID_Device_CreateHIDReport]
  split_ifs <;> simp_all

theorem report_completeness_witness :
    (CALLBACK_HID_Device_CreateHIDReport 0 1 ⟨0, 0, 0⟩ 0xBF 0x3C ⟨1, 2, 3, 4⟩).ReportData =
      (CALLBACK_HID_Device_CreateHIDReport 0 1 ⟨5, 0, 9⟩ 0xBF 0x3C ⟨1, 2, 3, 4⟩).ReportData :=
  report_completeness 0 1 ⟨0, 0, 0⟩ ⟨5, 0, 9⟩ 0xBF 0x3C ⟨1, 2, 3, 4⟩
    (Or.inr (Or.inr rfl)) (Or.inr (Or.inl (by decide)))

/-- C8, the button field is the debounced mask.  For every debounce state and
every button-port sample, one call of `CALLBACK_HID_Device_CreateHIDReport`
advances the debounce bytes by exactly one `Buttons_GetStatus` step on that
sample, and the `Button` field of the report is the whole confirmed byte
`debouncedBState` after that step: `BUTTON_MASK` removes no bit. -/
theorem button_field_is_confirmed_state (ReportID ReportType : Nat)
    (ReportData : USB_JoystickReport_Data_t) (pinc pinb : Nat) (s : DebounceState) :
    (CALLBACK_HID_Device_CreateHIDReport ReportID ReportType ReportData pinc pinb s).debounce =
      (Buttons_GetStatus pinb s).2 ∧
    (CALLBACK_HID_Device_CreateHIDReport ReportID ReportType ReportData pinc pinb
        s).ReportData.Button =
      (CALLBACK_HID_Device_CreateHIDReport ReportID ReportType ReportData pinc pinb
        s).debounce.debouncedBState ∧
    (∀ i, (CALLBACK_HID_Device_CreateHIDReport ReportID ReportType ReportData pinc pinb
        s).ReportData.Button.testBit i =
      (Buttons_GetStatus pinb s).2.debouncedBState.testBit i) := by
  have h : (CALLBACK_HID_Device_CreateHIDReport ReportID ReportType ReportData pinc pinb
      s).ReportData.Button = (Buttons_GetStatus pinb s).1 := by
    simp only [CALLBACK_HID_Device_CreateHIDReport]
  rw [h, Buttons_GetStatus_fst]
  exact ⟨rfl, rfl, fun _ => rfl⟩

/-- C9, size and return value.  For every report id, report type, joystick
sample, button sample, debounce state and buffer content,
`CALLBACK_HID_Device_CreateHIDReport` sets `*ReportSize` to 3, the size of the
`X`, `Y`, `Button` record, and returns `false`. -/
theorem report_size_and_result (ReportID ReportType : Nat)
    (ReportData : USB_JoystickReport_Data_t) (pinc pinb : Nat) (s : DebounceState) :
    (CALLBACK_HID_Device_CreateHIDReport ReportID ReportType ReportData pinc pinb
        s).ReportSize = 3 ∧
    (CALLBACK_HID_Device_CreateHIDReport ReportID ReportType ReportData pinc pinb
        s).result = false :=
  ⟨rfl, rfl⟩

/-- C10, as stated, fails.  With the debounce bytes all zero and the button port
reading `0x00` (every line asserted), one `Buttons_GetStatus` step gives
`debounceB0 = 0xFF`, while `EVENT_USB_Device_StartOfFrame` (here with a library
function that counts an idle timer down) leaves the debounce bytes all zero. -/
theorem start_of_frame_counterexample :
    (EVENT_USB_Device_StartOfFrame (fun idle : Nat => idle - 1)
        ⟨500, DebounceState.init⟩).debounce = DebounceState.init ∧
    (Buttons_GetStatus 0x00 DebounceState.init).2 = ⟨0xFF, 0, 0, 0⟩ ∧
    (EVENT_USB_Device_StartOfFrame (fun idle : Nat => idle - 1)
        ⟨500, DebounceState.init⟩).debounce ≠ (Buttons_GetStatus 0x00 DebounceState.init).2 := by
  decide

/-- C10, amended.  `EVENT_USB_Device_StartOfFrame` leaves the debounce bytes as
they were, whatever the library function does to the interface object; the
debounce step is invoked by `CALLBACK_HID_Device_CreateHIDReport`, which advances
the debounce state by exactly one `Buttons_GetStatus` step per call. -/
theorem start_of_frame_keeps_debounce {H : Type} (HID_Device_MillisecondElapsed : H → H)
    (d : Device H) (ReportID ReportType : Nat) (ReportData : USB_JoystickReport_Data_t)
    (pinc pinb : Nat) (s : DebounceState) :
    (EVENT_USB_Device_StartOfFrame HID_Device_MillisecondElapsed d).debounce = d.debounce ∧
    (CALLBACK_HID_Device_CreateHIDReport ReportID ReportType ReportData pinc pinb s).debounce =
      (Buttons_GetStatus pinb s).2 :=
  ⟨rfl, rfl⟩

/-! ## Host report callback and joystick sampling: the claims -/

/-- C11, no-op report consumption.  For every report id, report type, buffer
content and size, `CALLBACK_HID_Device_ProcessHIDReport` returns and leaves the
debounce bytes `debounceB0`, `debounceB1`, `debounceB2`, `debouncedBState`, the
previous-report buffer and the interface object exactly as they were. -/
theorem process_report_is_noop {H : Type} (ReportID ReportType : Nat) (ReportData : List Nat)
    (ReportSize : Nat) (g : Globals H) :
    (CALLBACK_HID_Device_ProcessHIDReport ReportID ReportType ReportData ReportSize
        g).debounce = g.debounce ∧
    (CALLBACK_HID_Device_ProcessHIDReport ReportID ReportType ReportData ReportSize
        g).PrevJoystickHIDReportBuffer = g.PrevJoystickHIDReportBuffer ∧
    (CALLBACK_HID_Device_ProcessHIDReport ReportID ReportType ReportData ReportSize
        g).Joystick_HID_Interface = g.Joystick_HID_Interface :=
  ⟨rfl, rfl, rfl⟩

/-- A mask with the single bit `k` selects bit `k`. -/
theorem and_two_pow_ne_zero_iff (x k : Nat) : x &&& 2 ^ k ≠ 0 ↔ x.testBit k = true := by
  constructor
  · intro h
    by_contra hb
    apply h
    apply Nat.eq_of_testBit_eq
    intro j
    rw [Nat.testBit_and, Nat.testBit_two_pow, Nat.zero_testBit]
    by_cases hkj : k = j
    · subst hkj; simp [Bool.eq_false_iff.mpr hb]
    · simp [hkj]
  · intro hb h
    have := congrArg (fun y => Nat.testBit y k) h
    simp [Nat.testBit_and, Nat.testBit_two_pow, hb] at this

theorem Joystick_GetStatus_testBit (pinc i : Nat) :
    (Joystick_GetStatus pinc).testBit i = (decide (4 ≤ i ∧ i < 8) && !pinc.testBit i) := by
  have hmask : ∀ j, JOY_MASK.testBit j = decide (4 ≤ j ∧ j < 8) := by
    intro j
    have h240 : JOY_MASK = 2 ^ 4 * (2 ^ 4 - 1) := by decide
    rw [h240, Nat.testBit_mul_pow_two, Nat.testBit_two_pow_sub_one]
    by_cases h4 : 4 ≤ j <;> by_cases h8 : j < 8 <;> simp [h4, h8] <;> omega
  by_cases h8 : i < 8
  · simp [Joystick_GetStatus, testBit_mod_256, Nat.testBit_and, testBit_not8 _ _ h8, hmask, h8]
    by_cases h4 : 4 ≤ i <;> simp [h4]
  · simp [Joystick_GetStatus, testBit_mod_256, h8]

/-- C12, joystick sampling is active-low and masked.  For every value of `PINC`
the byte returned by `Joystick_GetStatus` has bit 4 (`JOY_LEFT`), bit 5
(`JOY_UP`), bit 6 (`JOY_RIGHT`) and bit 7 (`JOY_DOWN`) set exactly when the same
bit of `PINC` is clear, and bits 0 to 3 clear. -/
theorem joystick_status_active_low (pinc : Nat) :
    ((Joystick_GetStatus pinc).testBit 4 = !pinc.testBit 4 ∧
      (Joystick_GetStatus pinc).testBit 5 = !pinc.testBit 5 ∧
      (Joystick_GetStatus pinc).testBit 6 = !pinc.testBit 6 ∧
      (Joystick_GetStatus pinc).testBit 7 = !pinc.testBit 7) ∧
    ((Joystick_GetStatus pinc &&& JOY_LEFT ≠ 0 ↔ pinc.testBit 4 = false) ∧
      (Joystick_GetStatus pinc &&& JOY_UP ≠ 0 ↔ pinc.testBit 5 = false) ∧
      (Joystick_GetStatus pinc &&& JOY_RIGHT ≠ 0 ↔ pinc.testBit 6 = false) ∧
      (Joystick_GetStatus pinc &&& JOY_DOWN ≠ 0 ↔ pinc.testBit 7 = false)) ∧
    ((Joystick_GetStatus pinc).testBit 0 = false ∧
      (Joystick_GetStatus pinc).testBit 1 = false ∧
      (Joystick_GetStatus pinc).testBit 2 = false ∧
      (Joystick_GetStatus pinc).testBit 3 = false) ∧
    Joystick_GetStatus pinc < 256 := by
  have hL : JOY_LEFT = 2 ^ 4 := by decide
  have hU : JOY_UP = 2 ^ 5 := by decide
  have hR : JOY_RIGHT = 2 ^ 6 := by decide
  have hD : JOY_DOWN = 2 ^ 7 := by decide
  refine ⟨⟨?_, ?_, ?_, ?_⟩, ⟨?_, ?_, ?_, ?_⟩, ⟨?_, ?_, ?_, ?_⟩, ?_⟩
  · simp [Joystick_GetStatus_testBit]
  · simp [Joystick_GetStatus_testBit]
  · simp [Joystick_GetStatus_testBit]
  · simp [Joystick_GetStatus_testBit]
  · rw [hL, and_two_pow_ne_zero_iff, Joystick_GetStatus_testBit]; simp
  · rw [hU, and_two_pow_ne_zero_iff, Joystick_GetStatus_testBit]; simp
  · rw [hR, and_two_pow_ne_zero_iff, Joystick_GetStatus_testBit]; simp
  · rw [hD, and_two_pow_ne_zero_iff, Joystick_GetStatus_testBit]; simp
  · rw [Joystick_GetStatus_testBit]; rfl
  · rw [Joystick_GetStatus_testBit]; rfl
  · rw [Joystick_GetStatus_testBit]; rfl
  · rw [Joystick_GetStatus_testBit]; rfl
  · exact Nat.mod_lt _ (by decide)

/-- C13, axis mapping on a zeroed buffer.  If the `X` and `Y` fields of the output
buffer are `0` when `CALLBACK_HID_Device_CreateHIDReport` is entered, then after
the call `Y` is `-100` if UP is asserted, else `100` if DOWN is asserted, else `0`,
and `X` is `-100` if LEFT is asserted, else `100` if RIGHT is asserted, else `0`;
`X` and `Y` take no value other than `-100`, `0` and `100`. -/
theorem axis_mapping_on_zeroed_buffer (ReportID ReportType : Nat)
    (ReportData : USB_JoystickReport_Data_t) (pinc pinb : Nat) (s : DebounceState)
    (hX : ReportData.X = 0) (hY : ReportData.Y = 0) :
    (CALLBACK_HID_Device_CreateHIDReport ReportID ReportType ReportData pinc pinb
        s).ReportData.Y =
      (if Joystick_GetStatus pinc &&& JOY_UP ≠ 0 then -100
        else if Joystick_GetStatus pinc &&& JOY_DOWN ≠ 0 then 100 else 0) ∧
    (CALLBACK_HID_Device_CreateHIDReport ReportID ReportType ReportData pinc pinb
        s).ReportData.X =
      (if Joystick_GetStatus pinc &&& JOY_LEFT ≠ 0 then -100
        else if Joystick_GetStatus pinc &&& JOY_RIGHT ≠ 0 then 100 else 0) ∧
    ((CALLBACK_HID_Device_CreateHIDReport ReportID ReportType ReportData pinc pinb
        s).ReportData.Y = -100 ∨
      (CALLBACK_HID_Device_CreateHIDReport ReportID ReportType ReportData pinc pinb
        s).ReportData.Y = 0 ∨
      (CALLBACK_HID_Device_CreateHIDReport ReportID ReportType ReportData pinc pinb
        s).ReportData.Y = 100) ∧
    ((CALLBACK_HID_Device_CreateHIDReport ReportID ReportType ReportData pinc pinb
        s).ReportData.X = -100 ∨
      (CALLBACK_HID_Device_CreateHIDReport ReportID ReportType ReportData pinc pinb
        s).ReportData.X = 0 ∨
      (CALLBACK_HID_Device_CreateHIDReport ReportID ReportType ReportData pinc pinb
        s).ReportData.X = 100) := by
  simp only [CALLBACK_HID_Device_CreateHIDReport]
  split_ifs <;> simp [hX, hY]

theorem axis_mapping_on_zeroed_buffer_witness :
    (CALLBACK_HID_Device_CreateHIDReport 0 1 ⟨0, 0, 0xC3⟩ 0x7F 0x3C
        ⟨1, 2, 3, 4⟩).ReportData.Y = 100 ∧
    (CALLBACK_HID_Device_CreateHIDReport 0 1 ⟨0, 0, 0xC3⟩ 0x7F 0x3C
        ⟨1, 2, 3, 4⟩).ReportData.X = 0 :=
  ⟨(axis_mapping_on_zeroed_buffer 0 1 ⟨0, 0, 0xC3⟩ 0x7F 0x3C ⟨1, 2, 3, 4⟩ rfl rfl).1,
    (axis_mapping_on_zeroed_buffer 0 1 ⟨0, 0, 0xC3⟩ 0x7F 0x3C ⟨1, 2, 3, 4⟩ rfl rfl).2.1⟩

/-! ## The counter behind the debounce engine: the claims -/

/-- The counter machine and `lineStep` agree on a line. -/
theorem lineStep_eq_counterMachineStep (r b0 b1 b2 d : Bool) :
    (4 * (lineStep r (b0, b1, b2, d)).2.2.1.toNat + 2 * (lineStep r (b0, b1, b2, d)).2.1.toNat +
        (lineStep r (b0, b1, b2, d)).1.toNat, (lineStep r (b0, b1, b2, d)).2.2.2) =
      counterMachineStep r (4 * b2.toNat + 2 * b1.toNat + b0.toNat) d := by
  revert r b0 b1 b2 d; decide

/-- C14, the bit-parallel step is a per-line counter machine.  For every debounce
state, port sample and line `i`, with `c = 4 * debounceB2[i] + 2 * debounceB1[i] +
debounceB0[i]`, one call of `Buttons_GetStatus` leaves on line `i` the counter and
confirmed bit that `counterMachineStep` gives: counter `0` and the confirmed bit
kept when the inverted sample bit equals the confirmed bit, otherwise counter
`(c + 1) mod 8` and the confirmed bit flipped exactly when that is `0`.  The value
returned is the new confirmed byte. -/
theorem step_refines_counter_machine (s : DebounceState) (pinb i : Nat) (hi : i < 8) :
    (lineCounter i (Buttons_GetStatus pinb s).2,
        (Buttons_GetStatus pinb s).2.debouncedBState.testBit i) =
      counterMachineStep (rawBit i pinb) (lineCounter i s) (s.debouncedBState.testBit i) ∧
    (Buttons_GetStatus pinb s).1 = (Buttons_GetStatus pinb s).2.debouncedBState := by
  refine ⟨?_, Buttons_GetStatus_fst pinb s⟩
  have hstep := lineOf_debounceStep i hi s pinb
  have h := lineStep_eq_counterMachineStep (rawBit i pinb) (s.debounceB0.testBit i)
    (s.debounceB1.testBit i) (s.debounceB2.testBit i) (s.debouncedBState.testBit i)
  have hl : lineOf i s = (s.debounceB0.testBit i, s.debounceB1.testBit i,
    s.debounceB2.testBit i, s.debouncedBState.testBit i) := rfl
  rw [← hl, ← hstep] at h
  exact h

theorem step_refines_counter_machine_witness :
    (lineCounter 5 (Buttons_GetStatus 0x1F ⟨0xFF, 0xFF, 0xFF, 0x0F⟩).2,
        (Buttons_GetStatus 0x1F ⟨0xFF, 0xFF, 0xFF, 0x0F⟩).2.debouncedBState.testBit 5) =
      counterMachineStep (rawBit 5 0x1F) (lineCounter 5 ⟨0xFF, 0xFF, 0xFF, 0x0F⟩)
        ((0x0F : Nat).testBit 5) ∧
    (Buttons_GetStatus 0x1F ⟨0xFF, 0xFF, 0xFF, 0x0F⟩).1 =
      (Buttons_GetStatus 0x1F ⟨0xFF, 0xFF, 0xFF, 0x0F⟩).2.debouncedBState :=
  step_refines_counter_machine ⟨0xFF, 0xFF, 0xFF, 0x0F⟩ 0x1F 5 (by decide)

/-- Fewer than eight disagreeing samples on a line whose counter is clear leave
the confirmed bit as it was. -/
theorem lineRun_short (d : Bool) :
    ∀ m, m < 8 → (lineRun (false, false, false, d) (List.replicate m (!d))).2.2.2 = d := by
  revert d; decide

/-- C15, the acceptance window of the code.  For every debounce state in which the
three counter bits of line `i` are zero and every run of samples whose inverted
bit `i` differs from confirmed bit `i` at the start, confirmed bit `i` is
unchanged after the first `k` calls of `Buttons_GetStatus` for every `k < 8`; when
the run has 8 samples the bit is flipped after the 8th call and the three counter
bits of line `i` are zero again; and when the run has fewer than 8 samples and is
followed by samples that agree with the confirmed bit, the bit is still unchanged
after all of them. -/
theorem acceptance_window (s : DebounceState) (i : Nat) (hi : i < 8)
    (h0 : s.debounceB0.testBit i = false) (h1 : s.debounceB1.testBit i = false)
    (h2 : s.debounceB2.testBit i = false) (samples : List Nat)
    (hraw : ∀ p ∈ samples, rawBit i p = !s.debouncedBState.testBit i) :
    (∀ k, k < 8 →
      (debounceRun s (samples.take k)).debouncedBState.testBit i =
        s.debouncedBState.testBit i) ∧
    (samples.length = 8 →
      (debounceRun s samples).debouncedBState.testBit i = !s.debouncedBState.testBit i ∧
      (debounceRun s samples).debounceB0.testBit i = false ∧
      (debounceRun s samples).debounceB1.testBit i = false ∧
      (debounceRun s samples).debounceB2.testBit i = false) ∧
    (∀ after : List Nat, samples.length < 8 →
      (∀ p ∈ after, rawBit i p = s.debouncedBState.testBit i) →
      (debounceRun s (samples ++ after)).debouncedBState.testBit i =
        s.debouncedBState.testBit i) := by
  have hl : lineOf i s = (false, false, false, s.debouncedBState.testBit i) := by
    simp only [lineOf, h0, h1, h2]
  have hshort : ∀ k, k < 8 →
      (debounceRun s (samples.take k)).debouncedBState.testBit i =
        s.debouncedBState.testBit i := by
    intro k hk
    have hc : (debounceRun s (samples.take k)).debouncedBState.testBit i =
        (lineOf i (debounceRun s (samples.take k))).2.2.2 := rfl
    rw [hc, lineOf_debounceRun i hi, hl,
      map_rawBit_eq_replicate i _ (samples.take k)
        (fun p hp => hraw p (List.mem_of_mem_take hp))]
    apply lineRun_short
    rw [List.length_take]
    omega
  refine ⟨hshort, ?_, ?_⟩
  · intro hlen
    have hrun : lineOf i (debounceRun s samples) =
        (false, false, false, !s.debouncedBState.testBit i) := by
      rw [lineOf_debounceRun i hi, hl, map_rawBit_eq_replicate i _ samples hraw, hlen]
      exact (lineRun_eight _).1
    exact ⟨congrArg (fun l => l.2.2.2) hrun, congrArg (fun l => l.1) hrun,
      congrArg (fun l => l.2.1) hrun, congrArg (fun l => l.2.2.1) hrun⟩
  · intro after hlen hafter
    have hkeep := hshort samples.length hlen
    rw [List.take_length] at hkeep
    have happ : debounceRun s (samples ++ after) = debounceRun (debounceRun s samples) after := by
      simp [debounceRun, List.foldl_append]
    rw [happ, debounceRun_agree i hi after (debounceRun s samples), hkeep]
    intro p hp
    rw [hkeep]
    exact hafter p hp

theorem acceptance_window_witness :
    (debounceRun ⟨0xFE, 0xFE, 0xFE, 0x00⟩
        ([0xFE, 0x00, 0xAA, 0x54, 0xFE, 0x10, 0x7E, 0xCC].take 7)).debouncedBState.testBit 0 =
      (0x00 : Nat).testBit 0 ∧
    (debounceRun ⟨0xFE, 0xFE, 0xFE, 0x00⟩
        [0xFE, 0x00, 0xAA, 0x54, 0xFE, 0x10, 0x7E, 0xCC]).debouncedBState.testBit 0 =
      !(0x00 : Nat).testBit 0 :=
  ⟨(acceptance_window ⟨0xFE, 0xFE, 0xFE, 0x00⟩ 0 (by decide) (by decide) (by decide) (by decide)
      [0xFE, 0x00, 0xAA, 0x54, 0xFE, 0x10, 0x7E, 0xCC] (by decide)).1 7 (by decide),
    ((acceptance_window ⟨0xFE, 0xFE, 0xFE, 0x00⟩ 0 (by decide) (by decide) (by decide)
      (by decide) [0xFE, 0x00, 0xAA, 0x54, 0xFE, 0x10, 0x7E, 0xCC] (by decide)).2.1 rfl).1⟩

/-- After `lineStep` the counter bits are all clear exactly when the sample bit
equals the confirmed bit; a line that agreed before the step has them clear. -/
theorem lineStep_counter (r b0 b1 b2 d : Bool) :
    ((lineStep r (b0, b1, b2, d)).1 || (lineStep r (b0, b1, b2, d)).2.1 ||
        (lineStep r (b0, b1, b2, d)).2.2.1) = xor r (lineStep r (b0, b1, b2, d)).2.2.2 ∧
    (r = d → (lineStep r (b0, b1, b2, d)).1 = false ∧ (lineStep r (b0, b1, b2, d)).2.1 = false ∧
      (lineStep r (b0, b1, b2, d)).2.2.1 = false) := by
  revert r b0 b1 b2 d; decide

/-- C16, the counter/disagreement invariant.  For every debounce state and port
sample, after one call of `Buttons_GetStatus` the bytes satisfy
`debounceB0 | debounceB1 | debounceB2 = ~PINB ^ debouncedBState`; so on every
line `i` the three counter bits are all zero exactly when the inverted sample bit
equals the confirmed bit after the call, and a line whose delta bit is 0 (inverted
sample bit equal to the confirmed bit before the call) has its counter reset. -/
theorem counter_tracks_disagreement (s : DebounceState) (pinb i : Nat) (hi : i < 8) :
    ((Buttons_GetStatus pinb s).2.debounceB0 ||| (Buttons_GetStatus pinb s).2.debounceB1 |||
        (Buttons_GetStatus pinb s).2.debounceB2 =
      not8 pinb ^^^ (Buttons_GetStatus pinb s).2.debouncedBState) ∧
    (((Buttons_GetStatus pinb s).2.debounceB0.testBit i = false ∧
        (Buttons_GetStatus pinb s).2.debounceB1.testBit i = false ∧
        (Buttons_GetStatus pinb s).2.debounceB2.testBit i = false) ↔
      rawBit i pinb = (Buttons_GetStatus pinb s).2.debouncedBState.testBit i) ∧
    (rawBit i pinb = s.debouncedBState.testBit i →
      (Buttons_GetStatus pinb s).2.debounceB0.testBit i = false ∧
      (Buttons_GetStatus pinb s).2.debounceB1.testBit i = false ∧
      (Buttons_GetStatus pinb s).2.debounceB2.testBit i = false) := by
  have hline : ∀ j, j < 8 →
      (((Buttons_GetStatus pinb s).2.debounceB0.testBit j ||
          (Buttons_GetStatus pinb s).2.debounceB1.testBit j ||
          (Buttons_GetStatus pinb s).2.debounceB2.testBit j) =
        xor (rawBit j pinb) ((Buttons_GetStatus pinb s).2.debouncedBState.testBit j)) ∧
      (rawBit j pinb = s.debouncedBState.testBit j →
        (Buttons_GetStatus pinb s).2.debounceB0.testBit j = false ∧
        (Buttons_GetStatus pinb s).2.debounceB1.testBit j = false ∧
        (Buttons_GetStatus pinb s).2.debounceB2.testBit j = false) := by
    intro j hj
    have hstep := lineOf_debounceStep j hj s pinb
    have hl : lineOf j s = (s.debounceB0.testBit j, s.debounceB1.testBit j,
      s.debounceB2.testBit j, s.debouncedBState.testBit j) := rfl
    have h := lineStep_counter (rawBit j pinb) (s.debounceB0.testBit j)
      (s.debounceB1.testBit j) (s.debounceB2.testBit j) (s.debouncedBState.testBit j)
    rw [← hl, ← hstep] at h
    exact h
  refine ⟨?_, ?_, (hline i hi).2⟩
  · apply Nat.eq_of_testBit_eq
    intro j
    by_cases hj : j < 8
    · rw [Nat.testBit_or, Nat.testBit_or, Nat.testBit_xor]
      exact (hline j hj).1
    · simp [Buttons_GetStatus, not8, testBit_mod_256, hj]
  · have h := (hline i hi).1
    generalize (Buttons_GetStatus pinb s).2.debounceB0.testBit i = a at h ⊢
    generalize (Buttons_GetStatus pinb s).2.debounceB1.testBit i = b at h ⊢
    generalize (Buttons_GetStatus pinb s).2.debounceB2.testBit i = c at h ⊢
    generalize (Buttons_GetStatus pinb s).2.debouncedBState.testBit i = d at h ⊢
    generalize rawBit i pinb = r at h ⊢
    revert h; revert a b c d r; decide

theorem counter_tracks_disagreement_witness :
    (Buttons_GetStatus 0x5A ⟨0x33, 0x0F, 0xF0, 0xA5⟩).2.debounceB0.testBit 6 = false ∧
    (Buttons_GetStatus 0x5A ⟨0x33, 0x0F, 0xF0, 0xA5⟩).2.debounceB1.testBit 6 = false ∧
    (Buttons_GetStatus 0x5A ⟨0x33, 0x0F, 0xF0, 0xA5⟩).2.debounceB2.testBit 6 = false :=
  (counter_tracks_disagreement ⟨0x33, 0x0F, 0xF0, 0xA5⟩ 0x5A 6 (by decide)).2.2 (by decide)

end Joystick
